import Mathlib

/-!
Verification development for the LTS-OSM level-of-traffic-stress classifier
(`lts_functions.py`).  Each pandas/numpy operation is embedded per edge row:
a missing cell (NaN) is `none` / a dedicated `na` constructor, `np.select`
over a condition list is first-match selection, the `np.array(x, dtype=int)`
cast is a fallible integer parse, and Python exceptions are `Except.error`.
-/

namespace LTSOSM

/-- A pandas object-dtype cell as used by the `lanes` and `maxspeed` columns:
missing (NaN), an integer (as substituted by the resolvers), a string tag, or
a list of string tags (merged adjacent ways). -/
inductive PyCell where
  | na
  | pint (n : Int)
  | pstr (s : String)
  | plist (ss : List String)
deriving DecidableEq

/-- A `width` cell: missing, numeric (metres), or a malformed string. -/
inductive WCell where
  | wna
  | wnum (q : ℚ)
  | wstr (s : String)
deriving DecidableEq

/-- One edge row of the network dataframe.  `cycleways` and `parkings` hold
the values of the cycleway-family and parking-family columns of the row;
`shoulder` is `none` when the `shoulder:access:bicycle` column is absent from
the schema and `some v` (with `v` the possibly-missing cell) when present. -/
structure Edge where
  bicycle : Option String
  access : Option String
  highway : Option String
  footway : Option String
  motor_vehicle : Option String
  service : Option String
  cycleways : List (Option String)
  parkings : List (Option String)
  shoulder : Option (Option String)
  lanes : PyCell
  maxspeed : PyCell
  width : WCell
deriving DecidableEq

/-- `np.select(conditions, values, default)` on one row: the value of the
first true condition, else the default. -/
def npSelect {α : Type} : List (Bool × α) → α → α
  | [], d => d
  | (c, v) :: rest, d => if c then v else npSelect rest d

/-- Does `pat` occur as a leading run of `cs`?  (Helper for substring.) -/
def leadMatch : List Char → List Char → Bool
  | [], _ => true
  | _ :: _, [] => false
  | p :: ps, c :: cs => p == c && leadMatch ps cs

/-- Does `pat` occur as a contiguous run anywhere in the list? -/
def hasSub (pat : List Char) : List Char → Bool
  | [] => pat.isEmpty
  | c :: cs => leadMatch pat (c :: cs) || hasSub pat cs

/-- Substring test, as the Python expression with the keyword in. -/
def strContains (s pat : String) : Bool := hasSub pat.data s.data

/-- Split a character list on spaces, dropping empty pieces; `acc` holds the
reversed current token. -/
def tokenizeAux : List Char → List Char → List (List Char)
  | [], acc => if acc.isEmpty then [] else [acc.reverse]
  | c :: cs, acc =>
    if c == ' ' then
      if acc.isEmpty then tokenizeAux cs [] else acc.reverse :: tokenizeAux cs []
    else tokenizeAux cs (c :: acc)

/-- Model of s.split() in Python: split on whitespace, dropping empty pieces. -/
def pyTokens (s : String) : List String :=
  (tokenizeAux s.data []).map (fun cs => String.mk cs)

/-- Value of a digit run read in base 10. -/
def digitsVal (ds : List Char) : Nat :=
  ds.foldl (fun a c => a * 10 + (c.toNat - 48)) 0

/-- Strip leading and trailing spaces, as Python number parsing does. -/
def trimSpaces (cs : List Char) : List Char :=
  ((cs.dropWhile (fun c => c == ' ')).reverse.dropWhile (fun c => c == ' ')).reverse

/-- Unsigned core of int(s) in Python: a nonempty all-digit run. -/
def pyIntCore (cs : List Char) : Option Int :=
  if ¬cs.isEmpty ∧ cs.all Char.isDigit then some (digitsVal cs) else none

/-- Optional-sign wrapper around `pyIntCore`. -/
def pySignedInt : List Char → Option Int
  | [] => none
  | a :: rest =>
    if a == '-' then (pyIntCore rest).map Neg.neg
    else if a == '+' then pyIntCore rest
    else pyIntCore (a :: rest)

/-- Model of int(s) in Python (as used by np.array with dtype int on strings):
optional sign, digits only; anything else raises, modelled as `none`. -/
def pyInt (s : String) : Option Int :=
  pySignedInt (trimSpaces s.data)

/-- Unsigned core of float(s) in Python: digits, optionally a decimal point
with further digits; at least one digit overall. -/
def pyFloatCore (cs : List Char) : Option ℚ :=
  let ip := cs.takeWhile Char.isDigit
  let rest := cs.dropWhile Char.isDigit
  match rest with
  | [] => if ip.isEmpty then none else some (digitsVal ip)
  | '.' :: rest2 =>
    let fp := rest2.takeWhile Char.isDigit
    let rest3 := rest2.dropWhile Char.isDigit
    if rest3.isEmpty ∧ ¬(ip.isEmpty ∧ fp.isEmpty) then
      some ((digitsVal ip : ℚ) + (digitsVal fp : ℚ) / ((10 : ℚ) ^ fp.length))
    else none
  | _ => none

/-- Optional-sign wrapper around `pyFloatCore`. -/
def pySignedFloat : List Char → Option ℚ
  | [] => none
  | a :: rest =>
    if a == '-' then (pyFloatCore rest).map Neg.neg
    else if a == '+' then pyFloatCore rest
    else pyFloatCore (a :: rest)

/-- Model of float(s) in Python: optional sign around the unsigned core. -/
def pyFloat (s : String) : Option ℚ :=
  pySignedFloat (trimSpaces s.data)

/-- Model of np.array with dtype int followed by np.max, applied to one cell:
an int passes through, a string is parsed as an integer, a list is parsed
elementwise and its maximum taken; NaN, malformed strings and empty lists
raise (`Except.error`). -/
def castIntMax : PyCell → Except String Int
  | .na => .error "ValueError: cannot convert float NaN to integer"
  | .pint n => .ok n
  | .pstr s =>
    match pyInt s with
    | some n => .ok n
    | none => .error "ValueError: invalid literal for int()"
  | .plist ss =>
    match ss.mapM pyInt with
    | some ns =>
      match ns.max? with
      | some m => .ok m
      | none => .error "ValueError: zero-size array reduction"
    | none => .error "ValueError: invalid literal for int()"

/-- `Series.fillna` on one cell. -/
def fillna (d : PyCell) : PyCell → PyCell
  | .na => d
  | c => c

/-- `get_lanes`: fill missing `lanes` with the default, take the maximum of
multi-valued cells, cast to integer; yields the `lanes_assumed` value. -/
def get_lanes (default_lanes : Int) (e : Edge) : Except String Int :=
  castIntMax (fillna (.pint default_lanes) e.lanes)

/-- `mph_to_kph`. -/
def mph_to_kph (mph : ℚ) : ℚ := mph * (1.60934 : ℚ)

/-- `kph_to_mph`. -/
def kph_to_mph (kph : ℚ) : ℚ := kph / (1.60934 : ℚ)

/-- `knots_to_mph`. -/
def knots_to_mph (knots : ℚ) : ℚ := knots * (1.15078 : ℚ)

/-- `mph_to_knots`. -/
def mph_to_knots (mph : ℚ) : ℚ := mph / (1.15078 : ℚ)

/-- Input to `parse_speed`: a string, the float NaN, or another (non-NaN)
number. -/
inductive SpeedIn where
  | str (s : String)
  | nan
  | num (q : ℚ)
deriving DecidableEq

/-- Model of parse_speed: on a string, the branch testing whether it contains
mph parses the first whitespace token as a float, the knots branch does the same and
converts knots to mph, otherwise the whole string is parsed as a float
(a failed `float()` raises); NaN propagates as missing; any other input
falls off the end of the function, returning Python `None` (`.ok none`). -/
def parse_speed : SpeedIn → Except String (Option ℚ)
  | .str s =>
    if strContains s "mph" then
      match pyTokens s with
      | [] => .error "IndexError: list index out of range"
      | t :: _ =>
        match pyFloat t with
        | some q => .ok (some q)
        | none => .error "ValueError: could not convert string to float"
    else if strContains s "knots" then
      match pyTokens s with
      | [] => .error "IndexError: list index out of range"
      | t :: _ =>
        match pyFloat t with
        | some q => .ok (some (knots_to_mph q))
        | none => .error "ValueError: could not convert string to float"
    else
      match pyFloat s with
      | some q => .ok (some q)
      | none => .error "ValueError: could not convert string to float"
  | .nan => .ok none
  | .num _ => .ok none

/-- `clean_speeds` on one `maxspeed` cell: applies `parse_speed` (the parsed
column is stored under a new key; the original column is untouched).
A list-valued cell reaches `np.isnan` and raises. -/
def clean_speeds : PyCell → Except String (Option ℚ)
  | .na => parse_speed .nan
  | .pstr s => parse_speed (.str s)
  | .pint n => parse_speed (.num n)
  | .plist _ => .error "TypeError: isnan not supported for the input types"

/-- `get_max_speed`: the `np.select` cascade over the `maxspeed` column
(the tag value national, then missing keyed on highway class, then missing, default the
raw tag value) followed by the max/int cast; yields `maxspeed_assumed`. -/
def get_max_speed (national localDefault motorway primary secondary : Int)
    (e : Edge) : Except String Int :=
  castIntMax
    (if e.maxspeed = PyCell.pstr "national" then .pint national
     else if e.maxspeed = PyCell.na ∧ e.highway = some "motorway" then .pint motorway
     else if e.maxspeed = PyCell.na ∧ e.highway = some "primary" then .pint primary
     else if e.maxspeed = PyCell.na ∧ e.highway = some "secondary" then .pint secondary
     else if e.maxspeed = PyCell.na then .pint localDefault
     else e.maxspeed)

/-- Modelled from the spec: the US-variant speed resolver.  The body of
`get_max_speed_us` in the source cannot be embedded as written: it contains
uncommented prose (a syntax error) and its `values` list references the
undefined name resdidential.  This definition follows the words of the spec for
the intended variant: the same first-match cascade keyed on
motorway/primary/secondary/tertiary/residential with no national and no
generic-local fallback, a present tag value used as-is (max over
multi-values, cast to integer). -/
def get_max_speed_us_intended
    (motorway primary secondary tertiary residential : Int)
    (e : Edge) : Except String Int :=
  castIntMax
    (if e.maxspeed = PyCell.na ∧ e.highway = some "motorway" then .pint motorway
     else if e.maxspeed = PyCell.na ∧ e.highway = some "primary" then .pint primary
     else if e.maxspeed = PyCell.na ∧ e.highway = some "secondary" then .pint secondary
     else if e.maxspeed = PyCell.na ∧ e.highway = some "tertiary" then .pint tertiary
     else if e.maxspeed = PyCell.na ∧ e.highway = some "residential" then .pint residential
     else e.maxspeed)

/-- The rule assigned to one edge by the np.select call of biking_permitted. -/
def permittedRule (e : Edge) : String :=
  npSelect
    [(e.bicycle == some "no", "p2"),
     (e.access == some "no", "p6"),
     (e.highway == some "motorway", "p3"),
     (e.highway == some "motorway_link", "p4"),
     (e.highway == some "proposed", "p7"),
     (e.footway == some "sidewalk" && !(e.bicycle == some "yes")
        && (e.highway == some "footway" || e.highway == some "path"), "p5")]
    "p0"

/-- `biking_permitted`: split into (allowed = rule p0, not_allowed). -/
def biking_permitted (es : List Edge) : List Edge × List Edge :=
  (es.filter (fun e => permittedRule e == "p0"),
   es.filter (fun e => !(permittedRule e == "p0")))

/-- The rule assigned to one edge by the np.select call of is_separated_path. -/
def sepRule (e : Edge) : String :=
  npSelect
    [(e.highway == some "cycleway", "s3"),
     (e.highway == some "path", "s1"),
     (e.highway == some "footway" && !(e.footway == some "crossing"), "s2"),
     (e.cycleways.any (fun c => c == some "track"), "s7"),
     (e.cycleways.any (fun c => c == some "opposite_track"), "s8")]
    "s0"

/-- `is_separated_path`: split into (separated = rule not s0, not_separated). -/
def is_separated_path (es : List Edge) : List Edge × List Edge :=
  (es.filter (fun e => !(sepRule e == "s0")),
   es.filter (fun e => sepRule e == "s0"))

/-- The cycleway-family values that mark a bike lane. -/
def lane_identifiers : List String :=
  ["crossing", "lane", "left", "opposite", "opposite_lane", "right", "yes"]

/-- The per-edge lane test of `is_bike_lane`: any cycleway-family cell is in
`lane_identifiers`, or (when the `shoulder:access:bicycle` column exists)
that cell equals yes. -/
def laneCheck (e : Edge) : Bool :=
  match e.shoulder with
  | some sv =>
    e.cycleways.any (fun c =>
      match c with
      | some v => lane_identifiers.contains v
      | none => false) || (sv == some "yes")
  | none =>
    e.cycleways.any (fun c =>
      match c with
      | some v => lane_identifiers.contains v
      | none => false)

/-- `is_bike_lane`: split into (to_analyze = has a lane, no_lane). -/
def is_bike_lane (es : List Edge) : List Edge × List Edge :=
  (es.filter (fun e => laneCheck e), es.filter (fun e => !laneCheck e))

/-- The parking-family values that mark parking. -/
def parking_identifiers : List String :=
  ["yes", "parallel", "perpendicular", "diagonal", "marked"]

/-- The per-edge parking test of `parking_present`. -/
def parkingCheck (e : Edge) : Bool :=
  e.parkings.any (fun c =>
    match c with
    | some v => parking_identifiers.contains v
    | none => false)

/-- `parking_present`: split into (parking_detected, parking_not_detected). -/
def parking_present (es : List Edge) : List Edge × List Edge :=
  (es.filter (fun e => parkingCheck e), es.filter (fun e => !parkingCheck e))

/-- Pandas `width <= bound` on one resolved cell: false on NaN. -/
def widthLE (w : WCell) (bound : ℚ) : Bool :=
  match w with
  | .wnum q => decide (q ≤ bound)
  | _ => false

/-- The string-to-NaN coercion applied to `width` by the no-parking scorer. -/
def widthCoerced : WCell → WCell
  | .wstr _ => .wna
  | w => w

/-- `isinstance(x, float)` on a (coerced) width cell: NaN is a float. -/
def isFloatW : WCell → Bool
  | .wna => true
  | .wnum _ => true
  | .wstr _ => false

/-- An edge as returned by a scoring procedure: the resolved lane and speed
columns, the matched rule id, and the mapped LTS (`none` when the rule id is
absent from the rule dictionary of the scorer, i.e. pandas NaN). -/
structure ScoredEdge where
  lanes_assumed : Int
  maxspeed_assumed : Int
  rule : String
  lts : Option Int
deriving DecidableEq

/-- Rule dictionary of `bike_lane_analysis_with_parking`. -/
def bike_parking_rule_dict : List (String × Int) :=
  [("b1", 1), ("b2", 3), ("b3", 3), ("b4", 2), ("b5", 2), ("b6", 2),
   ("b7", 3), ("b8", 4), ("b9", 3)]

/-- The rule assigned by the np.select call of bike_lane_analysis_with_parking. -/
def bike_parking_rule (e : Edge) (speed lanes : Int) : String :=
  npSelect
    [(decide (lanes ≥ 3) && decide (speed ≤ 55), "b2"),
     (widthLE e.width (4.1 : ℚ), "b3"),
     (widthLE e.width (4.25 : ℚ), "b4"),
     (widthLE e.width (4.5 : ℚ) && (decide (speed ≤ 40)
        && (e.highway == some "residential")), "b5"),
     (decide (speed > 40) && decide (speed ≤ 50), "b6"),
     (decide (speed > 50) && decide (speed ≤ 55), "b7"),
     (decide (speed > 55), "b8"),
     (!(e.highway == some "residential"), "b9")]
    "b1"

/-- `bike_lane_analysis_with_parking` on one edge: resolve lanes and speed
(propagating their cast errors), evaluate the width comparisons (a string
width raises a TypeError in pandas), assign the first matching rule and map
it through the rule dictionary. -/
def bike_lane_analysis_with_parking (e : Edge) : Except String ScoredEdge :=
  match get_lanes 2 e with
  | .error msg => .error msg
  | .ok lanes =>
    match get_max_speed 40 50 100 80 80 e with
    | .error msg => .error msg
    | .ok speed =>
      match e.width with
      | .wstr _ => .error "TypeError: unorderable types str() and float()"
      | _ =>
        .ok ⟨lanes, speed, bike_parking_rule e speed lanes,
          List.lookup (bike_parking_rule e speed lanes) bike_parking_rule_dict⟩

/-- Rule dictionary of `bike_lane_analysis_no_parking`. -/
def bike_no_parking_rule_dict : List (String × Int) :=
  [("c1", 1), ("c3", 3), ("c4", 2), ("c5", 3), ("c6", 4), ("c7", 3)]

/-- The rule assigned by the np.select call of bike_lane_analysis_no_parking,
after string widths are coerced to NaN. -/
def bike_no_parking_rule (e : Edge) (speed lanes : Int) : String :=
  npSelect
    [(decide (lanes ≥ 3) && decide (speed ≤ 65), "c3"),
     (isFloatW (widthCoerced e.width) && widthLE (widthCoerced e.width) (1.7 : ℚ), "c4"),
     (decide (speed > 50) && decide (speed ≤ 65), "c5"),
     (decide (speed > 65), "c6"),
     (!(e.highway == some "residential"), "c7")]
    "c1"

/-- `bike_lane_analysis_no_parking` on one edge. -/
def bike_lane_analysis_no_parking (e : Edge) : Except String ScoredEdge :=
  match get_lanes 2 e with
  | .error msg => .error msg
  | .ok lanes =>
    match get_max_speed 40 50 100 80 80 e with
    | .error msg => .error msg
    | .ok speed =>
      .ok ⟨lanes, speed, bike_no_parking_rule e speed lanes,
        List.lookup (bike_no_parking_rule e speed lanes) bike_no_parking_rule_dict⟩

/-- Rule dictionary of `mixed_traffic`.  Note: the np.select default rule id
m0 has no entry. -/
def mixed_rule_dict : List (String × Int) :=
  [("m17", 1), ("m13", 1), ("m14", 2), ("m2", 2), ("m15", 2), ("m3", 2),
   ("m4", 2), ("m16", 2), ("m5", 2), ("m6", 3), ("m7", 3), ("m8", 4),
   ("m9", 2), ("m10", 3), ("m11", 4), ("m12", 4)]

/-- The rule assigned by the np.select call of mixed_traffic. -/
def mixedRule (e : Edge) (speed lanes : Int) : String :=
  npSelect
    [(e.motor_vehicle == some "no", "m17"),
     (e.highway == some "pedestrian", "m13"),
     (e.highway == some "footway" && e.footway == some "crossing", "m14"),
     (e.highway == some "service" && e.service == some "alley", "m2"),
     (e.highway == some "track", "m15"),
     (decide (speed ≤ 50) && (e.highway == some "service"
        && e.service == some "parking_aisle"), "m3"),
     (decide (speed ≤ 50) && (e.highway == some "service"
        && e.service == some "driveway"), "m4"),
     (decide (speed ≤ 35) && (e.highway == some "service"), "m16"),
     (decide (speed ≤ 40) && (decide (lanes ≤ 3)
        && (e.highway == some "residential")), "m5"),
     (decide (speed ≤ 40) && decide (lanes ≤ 3), "m6"),
     (decide (speed ≤ 40) && decide (lanes ≤ 5), "m7"),
     (decide (speed ≤ 40) && decide (lanes > 5), "m8"),
     (decide (speed ≤ 50) && (decide (lanes < 3)
        && (e.highway == some "residential")), "m9"),
     (decide (speed ≤ 50) && decide (lanes ≤ 3), "m10"),
     (decide (speed ≤ 50) && decide (lanes > 3), "m11"),
     (decide (speed > 50), "m12")]
    "m0"

/-- `mixed_traffic` on one edge. -/
def mixed_traffic (e : Edge) : Except String ScoredEdge :=
  match get_lanes 2 e with
  | .error msg => .error msg
  | .ok lanes =>
    match get_max_speed 40 50 100 80 80 e with
    | .error msg => .error msg
    | .ok speed =>
      .ok ⟨lanes, speed, mixedRule e speed lanes,
        List.lookup (mixedRule e speed lanes) mixed_rule_dict⟩


/-- A concrete residential edge: missing maxspeed and lanes, no cycleway or
parking values, no shoulder column; the end-to-end scenario edge. -/
def eResidential : Edge :=
  ⟨none, none, some "residential", none, none, none, [], [], none, .na, .na, .wna⟩

/-- A concrete edge with both bicycle=no and highway=motorway. -/
def eNoMotorway : Edge :=
  ⟨some "no", none, some "motorway", none, none, none, [], [], none, .na, .na, .wna⟩

/-- A concrete edge whose maxspeed tag is the unit-suffixed string 35 mph. -/
def eUnitSpeed : Edge :=
  ⟨none, none, some "primary", none, none, none, [], [], none, .na, .pstr "35 mph", .wna⟩

/-- Unfolding lemma for `npSelect` on a cons cell. -/
theorem npSelect_cons {α : Type} (c : Bool) (v : α) (rest : List (Bool × α)) (d : α) :
    npSelect ((c, v) :: rest) d = if c then v else npSelect rest d := rfl

/-- Unfolding lemma for `npSelect` on the empty list. -/
theorem npSelect_nil {α : Type} (d : α) : npSelect [] d = d := rfl

/-- C1: the Permission Filter evaluates its predicates in the fixed priority
order p2, p6, p3, p4, p7, p5 and assigns the rule id of the first predicate
that is true, p0 otherwise; in particular an edge with bicycle=no and
highway=motorway gets rule p2, not p3. -/
theorem biking_permitted_priority (e : Edge) :
    (permittedRule e =
      if e.bicycle = some "no" then "p2"
      else if e.access = some "no" then "p6"
      else if e.highway = some "motorway" then "p3"
      else if e.highway = some "motorway_link" then "p4"
      else if e.highway = some "proposed" then "p7"
      else if e.footway = some "sidewalk" ∧ (¬e.bicycle = some "yes")
          ∧ (e.highway = some "footway" ∨ e.highway = some "path") then "p5"
      else "p0")
    ∧ (e.bicycle = some "no" → e.highway = some "motorway" → permittedRule e = "p2") := by
  constructor
  · simp only [permittedRule, npSelect, Bool.and_eq_true, Bool.or_eq_true,
      beq_iff_eq, Bool.not_eq_true', beq_eq_false_iff_ne, ne_eq, and_assoc]
  · intro hb _
    simp [permittedRule, npSelect, hb]

/-- Witness for C1 at a concrete edge carrying bicycle=no and
highway=motorway. -/
theorem biking_permitted_priority_witness :
    permittedRule eNoMotorway = "p2" :=
  (biking_permitted_priority eNoMotorway).2 rfl rfl

/-- Permutation half of the splitting invariant, for a filter pair whose
second predicate is pointwise the negation of the first. -/
theorem split_pair_perm (p q : Edge → Bool) (hq : ∀ a, q a = !p a) (l : List Edge) :
    List.Perm (l.filter p ++ l.filter q) l := by
  rw [show l.filter q = l.filter (fun a => !p a) from List.filter_congr (fun a _ => hq a)]
  exact List.filter_append_perm p l

/-- Disjointness half of the splitting invariant. -/
theorem split_pair_inter (p q : Edge → Bool) (hq : ∀ a, q a = !p a) (l : List Edge) :
    (l.filter p) ∩ (l.filter q) = [] := by
  rw [List.eq_nil_iff_forall_not_mem]
  intro a ha
  rw [List.mem_inter_iff] at ha
  rcases ha with ⟨h1, h2⟩
  rw [List.mem_filter] at h1 h2
  rw [hq] at h2
  rw [h1.2] at h2
  simp at h2

/-- C2: each of the four splitting classifiers returns two partitions that
are disjoint and whose concatenation is a permutation of the input: no edge
is dropped, none is duplicated, and each edge lands in exactly one output. -/
theorem classifier_splits_partition (es : List Edge) :
    (List.Perm ((biking_permitted es).1 ++ (biking_permitted es).2) es
      ∧ ((biking_permitted es).1) ∩ ((biking_permitted es).2) = [])
    ∧ (List.Perm ((is_separated_path es).1 ++ (is_separated_path es).2) es
      ∧ ((is_separated_path es).1) ∩ ((is_separated_path es).2) = [])
    ∧ (List.Perm ((is_bike_lane es).1 ++ (is_bike_lane es).2) es
      ∧ ((is_bike_lane es).1) ∩ ((is_bike_lane es).2) = [])
    ∧ (List.Perm ((parking_present es).1 ++ (parking_present es).2) es
      ∧ ((parking_present es).1) ∩ ((parking_present es).2) = []) := by
  refine ⟨⟨?_, ?_⟩, ⟨?_, ?_⟩, ⟨?_, ?_⟩, ⟨?_, ?_⟩⟩
  · exact split_pair_perm _ _ (fun a => rfl) es
  · exact split_pair_inter _ _ (fun a => rfl) es
  · exact split_pair_perm (fun e => !(sepRule e == "s0")) (fun e => sepRule e == "s0")
      (fun a => by simp) es
  · exact split_pair_inter (fun e => !(sepRule e == "s0")) (fun e => sepRule e == "s0")
      (fun a => by simp) es
  · exact split_pair_perm _ _ (fun a => rfl) es
  · exact split_pair_inter _ _ (fun a => rfl) es
  · exact split_pair_perm _ _ (fun a => rfl) es
  · exact split_pair_inter _ _ (fun a => rfl) es

/-- C3: the residential edge with missing maxspeed and lanes and empty
cycleway/parking data is permitted (p0), not separated (s0), has no lane,
and the mixed-traffic scorer resolves lanes_assumed = 2 and
maxspeed_assumed = 50, assigns rule m9, and outputs lts = 2. -/
theorem residential_default_end_to_end :
    permittedRule eResidential = "p0"
    ∧ biking_permitted [eResidential] = ([eResidential], [])
    ∧ sepRule eResidential = "s0"
    ∧ is_separated_path [eResidential] = ([], [eResidential])
    ∧ laneCheck eResidential = false
    ∧ is_bike_lane [eResidential] = ([], [eResidential])
    ∧ mixed_traffic eResidential = .ok ⟨2, 50, "m9", some 2⟩ :=
  ⟨rfl, rfl, rfl, rfl, rfl, rfl, rfl⟩

/-- C4: the Lane+Parking scorer assigns rules and LTS by first match in the
priority order b2 (LTS 3), b3 (3), b4 (2), b5 (2), b6 (2), b7 (3), b8 (4),
b9 (3) with default b1 (LTS 1), under exactly the source predicates. -/
theorem with_parking_rule_table (e : Edge) (speed lanes : Int) :
    (bike_parking_rule e speed lanes,
      List.lookup (bike_parking_rule e speed lanes) bike_parking_rule_dict) =
    (if 3 ≤ lanes ∧ speed ≤ 55 then ("b2", some 3)
     else if widthLE e.width (4.1 : ℚ) = true then ("b3", some 3)
     else if widthLE e.width (4.25 : ℚ) = true then ("b4", some 2)
     else if widthLE e.width (4.5 : ℚ) = true ∧ speed ≤ 40
         ∧ e.highway = some "residential" then ("b5", some 2)
     else if 40 < speed ∧ speed ≤ 50 then ("b6", some 2)
     else if 50 < speed ∧ speed ≤ 55 then ("b7", some 3)
     else if 55 < speed then ("b8", some 4)
     else if ¬e.highway = some "residential" then ("b9", some 3)
     else ("b1", some 1)) := by
  have hr : bike_parking_rule e speed lanes =
    (if 3 ≤ lanes ∧ speed ≤ 55 then "b2"
     else if widthLE e.width (4.1 : ℚ) = true then "b3"
     else if widthLE e.width (4.25 : ℚ) = true then "b4"
     else if widthLE e.width (4.5 : ℚ) = true ∧ speed ≤ 40
         ∧ e.highway = some "residential" then "b5"
     else if 40 < speed ∧ speed ≤ 50 then "b6"
     else if 50 < speed ∧ speed ≤ 55 then "b7"
     else if 55 < speed then "b8"
     else if ¬e.highway = some "residential" then "b9"
     else "b1") := by
    simp only [bike_parking_rule, npSelect, Bool.and_eq_true, decide_eq_true_eq,
      beq_iff_eq, Bool.not_eq_true', beq_eq_false_iff_ne, ne_eq, ge_iff_le,
      gt_iff_lt, and_assoc]
  rw [hr]
  split_ifs <;> rfl

/-- Every rule id the mixed-traffic np.select can assign, except for the
unreachable default m0, is mapped by its dictionary to an LTS in 1..4; the
last three predicates are exhaustive over the resolved integers. -/
theorem mixed_lookup_exists (e : Edge) (speed lanes : Int) :
    ∃ n, List.lookup (mixedRule e speed lanes) mixed_rule_dict = some n
      ∧ 1 ≤ n ∧ n ≤ 4 := by
  simp only [mixedRule, npSelect_cons, npSelect_nil]
  by_cases h1 : (e.motor_vehicle == some "no") = true
  · rw [if_pos h1]
    exact ⟨1, rfl, by omega⟩
  rw [if_neg h1]
  by_cases h2 : (e.highway == some "pedestrian") = true
  · rw [if_pos h2]
    exact ⟨1, rfl, by omega⟩
  rw [if_neg h2]
  by_cases h3 : (e.highway == some "footway" && e.footway == some "crossing") = true
  · rw [if_pos h3]
    exact ⟨2, rfl, by omega⟩
  rw [if_neg h3]
  by_cases h4 : (e.highway == some "service" && e.service == some "alley") = true
  · rw [if_pos h4]
    exact ⟨2, rfl, by omega⟩
  rw [if_neg h4]
  by_cases h5 : (e.highway == some "track") = true
  · rw [if_pos h5]
    exact ⟨2, rfl, by omega⟩
  rw [if_neg h5]
  by_cases h6 : (decide (speed ≤ 50) && (e.highway == some "service"
        && e.service == some "parking_aisle")) = true
  · rw [if_pos h6]
    exact ⟨2, rfl, by omega⟩
  rw [if_neg h6]
  by_cases h7 : (decide (speed ≤ 50) && (e.highway == some "service"
        && e.service == some "driveway")) = true
  · rw [if_pos h7]
    exact ⟨2, rfl, by omega⟩
  rw [if_neg h7]
  by_cases h8 : (decide (speed ≤ 35) && (e.highway == some "service")) = true
  · rw [if_pos h8]
    exact ⟨2, rfl, by omega⟩
  rw [if_neg h8]
  by_cases h9 : (decide (speed ≤ 40) && (decide (lanes ≤ 3)
        && (e.highway == some "residential"))) = true
  · rw [if_pos h9]
    exact ⟨2, rfl, by omega⟩
  rw [if_neg h9]
  by_cases h10 : (decide (speed ≤ 40) && decide (lanes ≤ 3)) = true
  · rw [if_pos h10]
    exact ⟨3, rfl, by omega⟩
  rw [if_neg h10]
  by_cases h11 : (decide (speed ≤ 40) && decide (lanes ≤ 5)) = true
  · rw [if_pos h11]
    exact ⟨3, rfl, by omega⟩
  rw [if_neg h11]
  by_cases h12 : (decide (speed ≤ 40) && decide (lanes > 5)) = true
  · rw [if_pos h12]
    exact ⟨4, rfl, by omega⟩
  rw [if_neg h12]
  by_cases h13 : (decide (speed ≤ 50) && (decide (lanes < 3)
        && (e.highway == some "residential"))) = true
  · rw [if_pos h13]
    exact ⟨2, rfl, by omega⟩
  rw [if_neg h13]
  by_cases h14 : (decide (speed ≤ 50) && decide (lanes ≤ 3)) = true
  · rw [if_pos h14]
    exact ⟨3, rfl, by omega⟩
  rw [if_neg h14]
  by_cases h15 : (decide (speed ≤ 50) && decide (lanes > 3)) = true
  · rw [if_pos h15]
    exact ⟨4, rfl, by omega⟩
  rw [if_neg h15]
  by_cases h16 : (decide (speed > 50)) = true
  · rw [if_pos h16]
    exact ⟨4, rfl, by omega⟩
  rw [if_neg h16]
  exfalso
  simp only [Bool.and_eq_true, decide_eq_true_eq] at h14 h15 h16
  omega

/-- Every rule id the with-parking np.select can assign, including its
default b1, is mapped by its dictionary to an LTS in 1..4. -/
theorem bp_lookup_exists (e : Edge) (speed lanes : Int) :
    ∃ n, List.lookup (bike_parking_rule e speed lanes) bike_parking_rule_dict = some n
      ∧ 1 ≤ n ∧ n ≤ 4 := by
  simp only [bike_parking_rule, npSelect_cons, npSelect_nil]
  by_cases h1 : (decide (lanes ≥ 3) && decide (speed ≤ 55)) = true
  · rw [if_pos h1]
    exact ⟨3, rfl, by omega⟩
  rw [if_neg h1]
  by_cases h2 : (widthLE e.width (4.1 : ℚ)) = true
  · rw [if_pos h2]
    exact ⟨3, rfl, by omega⟩
  rw [if_neg h2]
  by_cases h3 : (widthLE e.width (4.25 : ℚ)) = true
  · rw [if_pos h3]
    exact ⟨2, rfl, by omega⟩
  rw [if_neg h3]
  by_cases h4 : (widthLE e.width (4.5 : ℚ) && (decide (speed ≤ 40)
        && (e.highway == some "residential"))) = true
  · rw [if_pos h4]
    exact ⟨2, rfl, by omega⟩
  rw [if_neg h4]
  by_cases h5 : (decide (speed > 40) && decide (speed ≤ 50)) = true
  · rw [if_pos h5]
    exact ⟨2, rfl, by omega⟩
  rw [if_neg h5]
  by_cases h6 : (decide (speed > 50) && decide (speed ≤ 55)) = true
  · rw [if_pos h6]
    exact ⟨3, rfl, by omega⟩
  rw [if_neg h6]
  by_cases h7 : (decide (speed > 55)) = true
  · rw [if_pos h7]
    exact ⟨4, rfl, by omega⟩
  rw [if_neg h7]
  by_cases h8 : (!(e.highway == some "residential")) = true
  · rw [if_pos h8]
    exact ⟨3, rfl, by omega⟩
  rw [if_neg h8]
  exact ⟨1, rfl, by omega⟩

/-- Every rule id the no-parking np.select can assign, including its
default c1, is mapped by its dictionary to an LTS in 1..4. -/
theorem bnp_lookup_exists (e : Edge) (speed lanes : Int) :
    ∃ n, List.lookup (bike_no_parking_rule e speed lanes) bike_no_parking_rule_dict = some n
      ∧ 1 ≤ n ∧ n ≤ 4 := by
  simp only [bike_no_parking_rule, npSelect_cons, npSelect_nil]
  by_cases h1 : (decide (lanes ≥ 3) && decide (speed ≤ 65)) = true
  · rw [if_pos h1]
    exact ⟨3, rfl, by omega⟩
  rw [if_neg h1]
  by_cases h2 : (isFloatW (widthCoerced e.width) && widthLE (widthCoerced e.width) (1.7 : ℚ)) = true
  · rw [if_pos h2]
    exact ⟨2, rfl, by omega⟩
  rw [if_neg h2]
  by_cases h3 : (decide (speed > 50) && decide (speed ≤ 65)) = true
  · rw [if_pos h3]
    exact ⟨3, rfl, by omega⟩
  rw [if_neg h3]
  by_cases h4 : (decide (speed > 65)) = true
  · rw [if_pos h4]
    exact ⟨4, rfl, by omega⟩
  rw [if_neg h4]
  by_cases h5 : (!(e.highway == some "residential")) = true
  · rw [if_pos h5]
    exact ⟨3, rfl, by omega⟩
  rw [if_neg h5]
  exact ⟨1, rfl, by omega⟩

/-- C5 counterexample: the default rule id m0 of the mixed-traffic scorer has
no entry in its rule-to-LTS dictionary, so not every scoring procedure maps
its catch-all default to an LTS value. -/
theorem mixed_default_rule_unmapped :
    List.lookup "m0" mixed_rule_dict = none := rfl

/-- C5 (amended): whenever a scoring procedure returns a scored edge, its
lts field is a defined integer between 1 and 4 - the two lane scorers map
their defaults b1 and c1, and the mixed-traffic predicate list is exhaustive
so its unmapped default m0 is never assigned. -/
theorem scorers_always_yield_lts (e : Edge) (o : ScoredEdge) :
    (mixed_traffic e = .ok o → ∃ n, o.lts = some n ∧ 1 ≤ n ∧ n ≤ 4)
    ∧ (bike_lane_analysis_with_parking e = .ok o → ∃ n, o.lts = some n ∧ 1 ≤ n ∧ n ≤ 4)
    ∧ (bike_lane_analysis_no_parking e = .ok o → ∃ n, o.lts = some n ∧ 1 ≤ n ∧ n ≤ 4) := by
  refine ⟨?_, ?_, ?_⟩
  · intro h
    unfold mixed_traffic at h
    rcases hg : get_lanes 2 e with msg | lanes
    · rw [hg] at h
      exact Except.noConfusion h
    · rw [hg] at h
      rcases hs : get_max_speed 40 50 100 80 80 e with msg | speed
      · rw [hs] at h
        exact Except.noConfusion h
      · rw [hs] at h
        simp only [Except.ok.injEq] at h
        subst h
        exact mixed_lookup_exists e speed lanes
  · intro h
    unfold bike_lane_analysis_with_parking at h
    rcases hg : get_lanes 2 e with msg | lanes
    · rw [hg] at h
      exact Except.noConfusion h
    · rw [hg] at h
      rcases hs : get_max_speed 40 50 100 80 80 e with msg | speed
      · rw [hs] at h
        exact Except.noConfusion h
      · rw [hs] at h
        rcases hw : e.width with _ | q | s
        · rw [hw] at h
          simp only [Except.ok.injEq] at h
          subst h
          exact bp_lookup_exists e speed lanes
        · rw [hw] at h
          simp only [Except.ok.injEq] at h
          subst h
          exact bp_lookup_exists e speed lanes
        · rw [hw] at h
          exact Except.noConfusion h
  · intro h
    unfold bike_lane_analysis_no_parking at h
    rcases hg : get_lanes 2 e with msg | lanes
    · rw [hg] at h
      exact Except.noConfusion h
    · rw [hg] at h
      rcases hs : get_max_speed 40 50 100 80 80 e with msg | speed
      · rw [hs] at h
        exact Except.noConfusion h
      · rw [hs] at h
        simp only [Except.ok.injEq] at h
        subst h
        exact bnp_lookup_exists e speed lanes

/-- Witness for C5 at the concrete residential edge, whose mixed-traffic
score is rule m9 with lts 2. -/
theorem scorers_always_yield_lts_witness :
    ∃ n, (ScoredEdge.mk 2 50 "m9" (some 2)).lts = some n ∧ 1 ≤ n ∧ n ≤ 4 :=
  (scorers_always_yield_lts eResidential ⟨2, 50, "m9", some 2⟩).1 rfl

/-- C6: parse_speed maps the string 35 mph to 35, the string 10 knots to
11.5078 (the leading numeral times 1.15078), the bare numeric string 50 to
50 unconverted, and a missing (NaN) input to a missing output. -/
theorem parse_speed_examples :
    parse_speed (.str "35 mph") = .ok (some 35)
    ∧ parse_speed (.str "10 knots") = .ok (some ((115078 : ℚ) / 10000))
    ∧ parse_speed (.str "50") = .ok (some 50)
    ∧ parse_speed .nan = .ok none := by
  refine ⟨rfl, ?_, rfl, rfl⟩
  have h : parse_speed (.str "10 knots") = .ok (some (knots_to_mph 10)) := rfl
  rw [h]
  norm_num [knots_to_mph]

/-- C7 counterexample: a present, non-NaN numeric input (35.0) makes
parse_speed return a missing value, so it does not return missing only for
genuinely absent input. -/
theorem parse_speed_missing_for_present_number :
    parse_speed (SpeedIn.num 35) = Except.ok none := rfl

/-- C7 (amended): a maxspeed string containing neither mph nor knots and not
parseable as a number makes parse_speed raise a ValueError rather than
silently coercing, and a NaN input yields a missing output; the claim that
missing is returned only for absent input holds only on string/NaN inputs,
since a present non-string number also returns missing. -/
theorem parse_speed_malformed_raises (s : String)
    (h1 : strContains s "mph" = false) (h2 : strContains s "knots" = false)
    (h3 : pyFloat s = none) :
    parse_speed (.str s) = .error "ValueError: could not convert string to float"
    ∧ parse_speed SpeedIn.nan = .ok none := by
  refine ⟨?_, rfl⟩
  simp [parse_speed, h1, h2, h3]

/-- Witness for C7 at the concrete malformed string fast. -/
theorem parse_speed_malformed_raises_witness :
    parse_speed (.str "fast") = .error "ValueError: could not convert string to float"
    ∧ parse_speed SpeedIn.nan = .ok none :=
  parse_speed_malformed_raises "fast" rfl rfl rfl

/-- C8: the intended US speed resolver (modelled from the spec, since the
source body is syntactically broken and references an undefined name) fills
a missing maxspeed with the mph defaults 80, 60, 35, 35, 25 keyed on the
five highway classes, and uses a present tag value as-is via the max/int
cast, with no national and no generic-local fallback. -/
theorem us_resolver_intended_cascade (e : Edge) :
    (e.maxspeed = PyCell.na → e.highway = some "motorway" →
      get_max_speed_us_intended 80 60 35 35 25 e = .ok 80)
    ∧ (e.maxspeed = PyCell.na → e.highway = some "primary" →
      get_max_speed_us_intended 80 60 35 35 25 e = .ok 60)
    ∧ (e.maxspeed = PyCell.na → e.highway = some "secondary" →
      get_max_speed_us_intended 80 60 35 35 25 e = .ok 35)
    ∧ (e.maxspeed = PyCell.na → e.highway = some "tertiary" →
      get_max_speed_us_intended 80 60 35 35 25 e = .ok 35)
    ∧ (e.maxspeed = PyCell.na → e.highway = some "residential" →
      get_max_speed_us_intended 80 60 35 35 25 e = .ok 25)
    ∧ (¬e.maxspeed = PyCell.na →
      get_max_speed_us_intended 80 60 35 35 25 e = castIntMax e.maxspeed) := by
  refine ⟨?_, ?_, ?_, ?_, ?_, ?_⟩
  · intro hm hh
    simp [get_max_speed_us_intended, hm, hh, castIntMax]
  · intro hm hh
    simp [get_max_speed_us_intended, hm, hh, castIntMax]
  · intro hm hh
    simp [get_max_speed_us_intended, hm, hh, castIntMax]
  · intro hm hh
    simp [get_max_speed_us_intended, hm, hh, castIntMax]
  · intro hm hh
    simp [get_max_speed_us_intended, hm, hh, castIntMax]
  · intro hm
    simp [get_max_speed_us_intended, hm]

/-- Witness for C8 at the concrete residential edge with missing maxspeed. -/
theorem us_resolver_intended_cascade_witness :
    get_max_speed_us_intended 80 60 35 35 25 eResidential = .ok 25 :=
  (us_resolver_intended_cascade eResidential).2.2.2.2.1 rfl rfl

/-- First character of a nonempty pattern occurs in any list it matches. -/
theorem hasSub_head_mem (p : Char) (ps cs : List Char)
    (h : hasSub (p :: ps) cs = true) : p ∈ cs := by
  induction cs with
  | nil => simp [hasSub] at h
  | cons c cs ih =>
    simp only [hasSub, Bool.or_eq_true] at h
    rcases h with h | h
    · simp only [leadMatch, Bool.and_eq_true, beq_iff_eq] at h
      rw [h.1]
      exact List.mem_cons_self c cs
    · exact List.mem_cons_of_mem c (ih h)

/-- Membership survives dropWhile when the element fails the predicate. -/
theorem mem_dropWhile_of_mem (p : Char → Bool) (c : Char) (cs : List Char)
    (hc : c ∈ cs) (hp : p c = false) : c ∈ cs.dropWhile p := by
  induction cs with
  | nil => simp at hc
  | cons a as ih =>
    rw [List.dropWhile_cons]
    by_cases ha : p a = true
    · rw [if_pos ha]
      rcases List.mem_cons.mp hc with rfl | hmem
      · rw [ha] at hp
        cases hp
      · exact ih hmem
    · rw [if_neg ha]
      exact hc

/-- Membership of a non-space character survives space trimming. -/
theorem mem_trimSpaces (c : Char) (cs : List Char) (hc : c ∈ cs)
    (hsp : (c == ' ') = false) : c ∈ trimSpaces cs := by
  unfold trimSpaces
  rw [List.mem_reverse]
  refine mem_dropWhile_of_mem _ c _ ?_ hsp
  rw [List.mem_reverse]
  exact mem_dropWhile_of_mem _ c _ hc hsp

/-- A non-digit member makes the all-digit integer core fail. -/
theorem pyIntCore_none_of_mem (cs : List Char) (c : Char) (hc : c ∈ cs)
    (hd : c.isDigit = false) : pyIntCore cs = none := by
  unfold pyIntCore
  rw [if_neg]
  intro hcontra
  have hall := hcontra.2
  rw [List.all_eq_true] at hall
  have hdig := hall c hc
  rw [hd] at hdig
  cases hdig

/-- A non-digit, non-sign member makes the signed integer parse fail. -/
theorem pySignedInt_none_of_mem (cs : List Char) (c : Char) (hc : c ∈ cs)
    (hd : c.isDigit = false) (hm : (c == '-') = false) (hp : (c == '+') = false) :
    pySignedInt cs = none := by
  cases cs with
  | nil => rfl
  | cons a rest =>
    rcases List.mem_cons.mp hc with rfl | hrest
    · simp only [pySignedInt, hm, hp, Bool.false_eq_true, if_false]
      exact pyIntCore_none_of_mem _ c (List.mem_cons_self c rest) hd
    · have hr : pyIntCore rest = none := pyIntCore_none_of_mem rest c hrest hd
      have ha : pyIntCore (a :: rest) = none :=
        pyIntCore_none_of_mem _ c (List.mem_cons_of_mem a hrest) hd
      simp only [pySignedInt]
      split_ifs <;> simp [hr, ha]

/-- A string containing mph can never be parsed by the bare integer cast. -/
theorem pyInt_none_of_mph (s : String) (h : strContains s "mph" = true) :
    pyInt s = none := by
  have h2 : hasSub ('m' :: 'p' :: 'h' :: []) s.data = true := h
  have hm : 'm' ∈ s.data := hasSub_head_mem 'm' ['p', 'h'] s.data h2
  unfold pyInt
  exact pySignedInt_none_of_mem _ 'm' (mem_trimSpaces 'm' s.data hm rfl) rfl rfl rfl

/-- C9: the generic speed resolver never applies the speed-string parser: a
present maxspeed string containing a unit suffix such as mph survives the
np.select default branch unchanged and then makes the integer cast raise, so
the resolver - and every scorer, which calls it directly - errors instead of
producing a numeric maxspeed_assumed, while clean_speeds parses the same
string successfully. -/
theorem mph_string_breaks_resolver (e : Edge) (s : String)
    (h1 : e.maxspeed = PyCell.pstr s) (h2 : strContains s "mph" = true) :
    get_max_speed 40 50 100 80 80 e = .error "ValueError: invalid literal for int()"
    ∧ (∃ msg, mixed_traffic e = .error msg)
    ∧ (∃ msg, bike_lane_analysis_with_parking e = .error msg)
    ∧ (∃ msg, bike_lane_analysis_no_parking e = .error msg)
    ∧ clean_speeds (PyCell.pstr "35 mph") = .ok (some 35) := by
  have hint : pyInt s = none := pyInt_none_of_mph s h2
  have hnat : ¬s = "national" := by
    intro hs
    rw [hs] at h2
    exact absurd h2 (by decide)
  have hspeed : get_max_speed 40 50 100 80 80 e =
      .error "ValueError: invalid literal for int()" := by
    simp [get_max_speed, h1, hnat, castIntMax, hint]
  refine ⟨hspeed, ?_, ?_, ?_, rfl⟩
  · rcases hg : get_lanes 2 e with msg | lanes
    · refine ⟨msg, ?_⟩
      unfold mixed_traffic
      rw [hg]
    · refine ⟨"ValueError: invalid literal for int()", ?_⟩
      unfold mixed_traffic
      rw [hg, hspeed]
  · rcases hg : get_lanes 2 e with msg | lanes
    · refine ⟨msg, ?_⟩
      unfold bike_lane_analysis_with_parking
      rw [hg]
    · refine ⟨"ValueError: invalid literal for int()", ?_⟩
      unfold bike_lane_analysis_with_parking
      rw [hg, hspeed]
  · rcases hg : get_lanes 2 e with msg | lanes
    · refine ⟨msg, ?_⟩
      unfold bike_lane_analysis_no_parking
      rw [hg]
    · refine ⟨"ValueError: invalid literal for int()", ?_⟩
      unfold bike_lane_analysis_no_parking
      rw [hg, hspeed]

/-- Witness for C9 at the concrete edge whose maxspeed is 35 mph. -/
theorem mph_string_breaks_resolver_witness :
    get_max_speed 40 50 100 80 80 eUnitSpeed =
      .error "ValueError: invalid literal for int()" :=
  (mph_string_breaks_resolver eUnitSpeed "35 mph" rfl rfl).1

/-- C10: every present non-string numeric input that is not NaN (the num
constructor, e.g. 50.0) makes parse_speed fall off the end of the function
and return None (a missing result) instead of the number itself. -/
theorem parse_speed_drops_numeric_input (q : ℚ) :
    parse_speed (SpeedIn.num q) = Except.ok none := rfl

end LTSOSM
